import Mathlib

/-!
# Verification of the pyker hand-evaluation core

A shallow embedding of the `pyker` repository (files `src/pyker/enums.py`,
`src/pyker/card.py`, `src/pyker/_utils.py`, `src/pyker/scored_hand.py`,
`src/pyker/card_set.py`, and the historical duplicate `src/pyker/__init__.py`),
together with theorems settling the frozen claims about its specification.

Python's `sorted` is a stable sort; it is embedded here as a stable insertion
sort (`sortDescBy` / `sortAscBy`): an element is inserted after every earlier
element whose key ties with it, which is exactly the stability contract of
`sorted` (including `reverse=True`, which reverses comparisons but keeps ties
in original order).

Exceptions are embedded as `Option` / `Except`: a Python statement that can
raise becomes a `none` / `.error` branch at the same program point.  One such
raise point is central: `Rank` in `src/pyker/enums.py` overrides `__eq__`
(line 46) without defining `__hash__`, so Python sets `Rank.__hash__ = None`
and Rank members are unhashable.  `Card.__matmul__` (`src/pyker/card.py` line
127) evaluates `Rank.ACE in {self.rank, other.rank}` — a set construction that
hashes both ranks — so it raises `TypeError` whenever that line is reached,
i.e. for any two unequal cards whose rank numbers do not differ by exactly 1.
(The monolithic copy in `src/pyker/__init__.py` lines 108-119 uses `or`-chains
instead of a set and does not raise.)  `cardAdj` models this faithfully as an
`Option Bool`, and the error propagates through `>>`, `check_straight`,
`ScoredHand` and `best_hand` exactly as a Python exception would, including
Python's `and`/`all`/generator short-circuiting.
-/

/-- `Rank` enum from `src/pyker/enums.py` (13 members, `ACE = 1 … KING = 13`). -/
inductive Rank where
  | ACE | TWO | THREE | FOUR | FIVE | SIX | SEVEN | EIGHT | NINE | TEN
  | JACK | QUEEN | KING
deriving DecidableEq, Repr, Fintype

/-- The `number` attribute of a `Rank` (first component of each enum value). -/
def Rank.number : Rank → Nat
  | .ACE => 1 | .TWO => 2 | .THREE => 3 | .FOUR => 4 | .FIVE => 5
  | .SIX => 6 | .SEVEN => 7 | .EIGHT => 8 | .NINE => 9 | .TEN => 10
  | .JACK => 11 | .QUEEN => 12 | .KING => 13

/-- The single-character `alias` attribute of a `Rank`. -/
def Rank.alias : Rank → Char
  | .ACE => 'A' | .TWO => '2' | .THREE => '3' | .FOUR => '4' | .FIVE => '5'
  | .SIX => '6' | .SEVEN => '7' | .EIGHT => '8' | .NINE => '9' | .TEN => 'T'
  | .JACK => 'J' | .QUEEN => 'Q' | .KING => 'K'

/-- `Rank.__eq__` compares the `number` attributes; since `number` is injective
over the 13 members this coincides with structural equality, which we use. -/
def rankEqb (a b : Rank) : Bool := a.number == b.number

/-- `Rank.__gt__` from `src/pyker/enums.py`:
`if other == ACE: False; if self == ACE: other != ACE; else number >`. -/
def rankGt (a b : Rank) : Bool :=
  if b = Rank.ACE then false
  else if a = Rank.ACE then !(b = Rank.ACE)
  else a.number > b.number

/-- `Rank.__lt__` from `src/pyker/enums.py`:
`if self == ACE: False; if other == ACE: self != ACE; else number <`. -/
def rankLt (a b : Rank) : Bool :=
  if a = Rank.ACE then false
  else if b = Rank.ACE then !(a = Rank.ACE)
  else a.number < b.number

/-- `Suit` enum from `src/pyker/enums.py`. -/
inductive Suit where
  | SPADES | HEARTS | CLUBS | DIAMONDS
deriving DecidableEq, Repr, Fintype

/-- The `index` attribute of a `Suit`. -/
def Suit.index : Suit → Nat
  | .SPADES => 1 | .HEARTS => 2 | .CLUBS => 3 | .DIAMONDS => 4

/-- The single-character `alias` attribute of a `Suit`. -/
def Suit.alias : Suit → Char
  | .SPADES => 'S' | .HEARTS => 'H' | .CLUBS => 'C' | .DIAMONDS => 'D'

/-- `HandType` enum from `src/pyker/enums.py` (also present, with two values
swapped, in `src/pyker/__init__.py`; see `HandType.valueInit`). -/
inductive HandType where
  | HIGH_CARD | PAIR | TWO_PAIR | THREE_OF_A_KIND | STRAIGHT | FLUSH
  | FULL_HOUSE | FOUR_OF_A_KIND | STRAIGHT_FLUSH | ROYAL_FLUSH
deriving DecidableEq, Repr, Fintype

/-- `HandType` member values as assigned in `src/pyker/enums.py` lines 64-75:
`HIGH_CARD = 1 … FOUR_OF_A_KIND = 8, STRAIGHT_FLUSH = 9, ROYAL_FLUSH = 10`. -/
def HandType.value : HandType → Nat
  | .HIGH_CARD => 1 | .PAIR => 2 | .TWO_PAIR => 3 | .THREE_OF_A_KIND => 4
  | .STRAIGHT => 5 | .FLUSH => 6 | .FULL_HOUSE => 7 | .FOUR_OF_A_KIND => 8
  | .STRAIGHT_FLUSH => 9 | .ROYAL_FLUSH => 10

/-- `HandType` member values as assigned in the duplicate enum in
`src/pyker/__init__.py` lines 65-75, where `STRAIGHT_FLUSH = 8` and
`FOUR_OF_A_KIND = 9` (swapped relative to `src/pyker/enums.py`). -/
def HandType.valueInit : HandType → Nat
  | .HIGH_CARD => 1 | .PAIR => 2 | .TWO_PAIR => 3 | .THREE_OF_A_KIND => 4
  | .STRAIGHT => 5 | .FLUSH => 6 | .FULL_HOUSE => 7 | .STRAIGHT_FLUSH => 8
  | .FOUR_OF_A_KIND => 9 | .ROYAL_FLUSH => 10

/-- `Card` from `src/pyker/card.py`: a (rank, suit) pair.  The `_id` counter
only feeds `__repr__` and is omitted; `__eq__` compares rank and suit, which is
structural equality here. -/
structure Card where
  rank : Rank
  suit : Suit
deriving DecidableEq, Repr

/-- `Card.__lt__` (`src/pyker/card.py` lines 101-105): if exactly one of the
two cards is an Ace, return `True`; else compare raw rank numbers with `<`. -/
def cardLt (a b : Card) : Bool :=
  if xor (a.rank = Rank.ACE) (b.rank = Rank.ACE) then true
  else a.rank.number < b.rank.number

/-- `Card.__gt__` (`src/pyker/card.py` lines 107-111): if exactly one of the
two cards is an Ace, return `True`; else compare raw rank numbers with `>`. -/
def cardGt (a b : Card) : Bool :=
  if xor (a.rank = Rank.ACE) (b.rank = Rank.ACE) then true
  else a.rank.number > b.rank.number

/-- `Card.__matmul__` (adjacency, `src/pyker/card.py` lines 121-132).
After the equality and abs-difference-1 tests, line 127 evaluates
`Rank.ACE in {self.rank, other.rank}`.  `Rank` overrides `__eq__`
(`src/pyker/enums.py` line 46) without `__hash__`, so Rank members are
unhashable and building that set raises `TypeError` whenever line 127 is
reached — the `none` branch.  The Ace/Two and Ace/King wrap tests on lines
127-131 are therefore dead code in this module. -/
def cardAdj (a b : Card) : Option Bool :=
  if a = b then some false
  else if ((a.rank.number : Int) - (b.rank.number : Int)).natAbs = 1 then some true
  else none

/-- `Card.__rshift__` (`src/pyker/card.py` lines 143-150): `self` directly
above `other`, with the `ACE >> TWO` and `KING >> ACE` wraps excluded.  The
final line is `self > other and self @ other`: Python's `and` short-circuits,
so `@` (which can raise `TypeError`, see `cardAdj`) is only evaluated when
`self > other` is `True`. -/
def cardRsh (a b : Card) : Option Bool :=
  if a.rank = Rank.ACE ∧ b.rank = Rank.TWO then some false
  else if a.rank = Rank.KING ∧ b.rank = Rank.ACE then some false
  else if cardGt a b then cardAdj a b else some false

/-- The sort key of `sorted(..., reverse=True, key=...)` used by
`ScoredHand.sort` / `sort_cards_by_rank`: the rank number, with `ACE`
re-weighted to 14 when `aces_high`. -/
def aceHighKey (c : Card) : Nat :=
  if c.rank = Rank.ACE then 14 else c.rank.number

/-- The `aces_high=False` sort key: the raw rank number. -/
def aceLowKey (c : Card) : Nat := c.rank.number

/-- One step of a stable descending insertion sort: `x` is placed after every
element whose key is `≥ key x`, matching the stability of Python's
`sorted(..., reverse=True)` for elements inserted later. -/
def insertDescBy {α : Type} (key : α → Nat) (x : α) : List α → List α
  | [] => [x]
  | y :: ys => if key y < key x then x :: y :: ys else y :: insertDescBy key x ys

/-- Stable descending sort by `key`: embedding of Python
`sorted(l, reverse=True, key=key)`. -/
def sortDescBy {α : Type} (key : α → Nat) (l : List α) : List α :=
  l.foldl (fun acc x => insertDescBy key x acc) []

/-- One step of a stable ascending insertion sort: `x` is placed after every
element whose key is `≤ key x`. -/
def insertAscBy {α : Type} (key : α → Nat) (x : α) : List α → List α
  | [] => [x]
  | y :: ys => if key x < key y then x :: y :: ys else y :: insertAscBy key x ys

/-- Stable ascending sort by `key`: embedding of Python `sorted(l, key=key)`. -/
def sortAscBy {α : Type} (key : α → Nat) (l : List α) : List α :=
  l.foldl (fun acc x => insertAscBy key x acc) []

/-- `ScoredHand.sort(aces_high)` (`src/pyker/scored_hand.py` lines 61-67):
stable descending sort of the cards by rank number, Ace as 14 if `aces_high`. -/
def sortHand (aces_high : Bool) (cards : List Card) : List Card :=
  sortDescBy (if aces_high then aceHighKey else aceLowKey) cards

/-- `CardSet.sort` (`src/pyker/card_set.py` lines 103-105): stable sort by suit
index ascending, then stable sort by rank descending (aces high); the second
pass keeps the suit order among cards of equal rank. -/
def sortCards (cards : List Card) : List Card :=
  sortDescBy aceHighKey (sortAscBy (fun c => c.suit.index) cards)

/-- The check `all(cards[i] >> cards[i+1] for i in range(4))` from
`ScoredHand.check_straight`, over the whole list (for a 5-card list this is
exactly the four consecutive pairs).  `all` consumes the generator lazily: it
stops at the first `False`, and a `TypeError` raised by a pair propagates —
later pairs are then never evaluated. -/
def chainRsh : List Card → Option Bool
  | a :: b :: rest =>
    match cardRsh a b with
    | none => none
    | some false => some false
    | some true => chainRsh (b :: rest)
  | _ => some true

/-- `ScoredHand.check_flush` (`src/pyker/scored_hand.py` lines 129-133):
all cards share the suit of `cards[0]`.  (Python would raise `IndexError` on an
empty list; this is only ever called on 5-card lists, where the `[]` branch is
unreachable.)  Suit has no custom `__eq__`, so no hashing is involved here. -/
def checkFlush (cards : List Card) : Bool :=
  match cards with
  | [] => true
  | c :: _ => cards.all (fun x => x.suit = c.suit)

/-- `ScoredHand.check_straight` (`src/pyker/scored_hand.py` lines 120-127).
Python mutates `self.cards` through the two sorts; the returned pair is
(result, final card order).  A `TypeError` from a `>>` chain (see `cardRsh`)
propagates out of `check_straight` — the `none` branch. -/
def checkStraight (cards : List Card) : Option (Bool × List Card) :=
  let c1 := sortHand true cards
  match chainRsh c1 with
  | none => none
  | some true => some (true, c1)
  | some false =>
    let c2 := sortHand false c1
    match chainRsh c2 with
    | none => none
    | some true => some (true, c2)
    | some false => some (false, c2)

/-- The distinct elements of a list in first-occurrence order: the insertion
order of the keys of `collections.Counter(l)`.  (The Counter counts the rank
`name` strings, which are hashable and in bijection with the ranks.) -/
def firsts : List Rank → List Rank
  | [] => []
  | r :: rs => r :: (firsts rs).filter (fun x => !(x == r))

/-- `Counter(ranks).most_common()`: pairs (rank, multiplicity) in
first-occurrence order, stably sorted by multiplicity descending. -/
def mostCommon (ranks : List Rank) : List (Rank × Nat) :=
  sortDescBy (fun g => g.2) ((firsts ranks).map (fun r => (r, ranks.count r)))

/-- A classified 5-card hand: the state of a `ScoredHand`
(`src/pyker/scored_hand.py`) after `__init__` returns. -/
structure SHand where
  cards : List Card
  hand_type : HandType
  kickers : List Rank
  is_flush : Bool
  is_straight : Bool
deriving DecidableEq, Repr

/-- Membership test `rank in self.ranks` used by `score_hand` (the `ranks`
property lists the `Rank` members for which some card has that rank).  `in`
against a list uses `__eq__`, not hashing, so it does not raise. -/
def rankMem (r : Rank) (cards : List Card) : Bool :=
  cards.any (fun c => c.rank = r)

/-- `ScoredHand.score_hand` (`src/pyker/scored_hand.py` lines 69-118), applied
to the card order left behind by `check_straight` and the two precomputed
flags.  Note the opening `self.sort()` re-sorts the cards aces-high before
`self.cards[0]` is read.  A `none` marks a program point where Python would
raise (`counts[0]` / `counts[1]` IndexError); all are unreachable for 5-card
inputs. -/
def scoreHand (cs0 : List Card) (is_flush is_straight : Bool) : Option SHand :=
  let cards := sortHand true cs0
  if is_flush && is_straight then
    if rankMem Rank.ACE cards && rankMem Rank.KING cards then
      some ⟨cards, HandType.ROYAL_FLUSH, [], is_flush, is_straight⟩
    else
      match cards with
      | [] => none
      | c :: _ =>
        some ⟨cards, HandType.STRAIGHT_FLUSH, [c.rank], is_flush, is_straight⟩
  else if is_flush then
    some ⟨cards, HandType.FLUSH, cards.map (fun c => c.rank), is_flush, is_straight⟩
  else if is_straight then
    match cards with
    | [] => none
    | c :: _ => some ⟨cards, HandType.STRAIGHT, [c.rank], is_flush, is_straight⟩
  else
    let groups := mostCommon (cards.map (fun c => c.rank))
    let kickers := groups.map (fun g => g.1)
    match groups with
    | [] => none
    | (_, c0) :: rest =>
      if c0 = 4 then
        some ⟨cards, HandType.FOUR_OF_A_KIND, kickers, is_flush, is_straight⟩
      else if c0 = 3 then
        match rest with
        | [] => none
        | (_, c1) :: _ =>
          if c1 = 2 then
            some ⟨cards, HandType.FULL_HOUSE, kickers, is_flush, is_straight⟩
          else
            some ⟨cards, HandType.THREE_OF_A_KIND, kickers, is_flush, is_straight⟩
      else if c0 = 2 then
        match rest with
        | [] => none
        | (_, c1) :: _ =>
          if c1 = 2 then
            some ⟨cards, HandType.TWO_PAIR, kickers, is_flush, is_straight⟩
          else
            some ⟨cards, HandType.PAIR, kickers, is_flush, is_straight⟩
      else
        some ⟨cards, HandType.HIGH_CARD, kickers, is_flush, is_straight⟩

/-- `ScoredHand.__init__` (`src/pyker/scored_hand.py` lines 11-19): raises
`ValueError` unless given exactly 5 cards, then computes `is_flush`,
`is_straight` (which re-orders the cards and can raise `TypeError`, see
`checkStraight`) and `score_hand`.  Every raise is a `none`. -/
def scoredHand (cards : List Card) : Option SHand :=
  if cards.length = 5 then
    let is_flush := checkFlush cards
    match checkStraight cards with
    | none => none
    | some (is_straight, cs) => scoreHand cs is_flush is_straight
  else none

/-- The `zip`-lexicographic kicker comparison loop inside
`ScoredHand.__lt__` (`src/pyker/scored_hand.py` lines 33-38), using the `Rank`
comparison operators; returns `false` when the zip is exhausted. -/
def kickLt : List Rank → List Rank → Bool
  | s :: ss, o :: os =>
    if rankLt s o then true
    else if rankGt s o then false
    else kickLt ss os
  | _, _ => false

/-- `ScoredHand.__lt__` (`src/pyker/scored_hand.py` lines 27-38): compare
`hand_type.value`, then the kickers lexicographically. -/
def sLt (a b : SHand) : Bool :=
  if a.hand_type.value < b.hand_type.value then true
  else if a.hand_type.value > b.hand_type.value then false
  else kickLt a.kickers b.kickers

/-- `ScoredHand.__eq__` (`src/pyker/scored_hand.py` lines 21-25): equal hand
type and equal kicker lists. -/
def sEq (a b : SHand) : Bool :=
  a.hand_type == b.hand_type && a.kickers == b.kickers

/-- `ScoredHand.__gt__` as synthesized by `functools.total_ordering` from
`__lt__` and `__eq__`: `not (self < other) and self != other`.  This is the
comparison `max` uses in `best_hand`. -/
def sGt (a b : SHand) : Bool :=
  !(sLt a b) && !(sEq a b)

/-- `ScoredHand.__lt__` as it executes inside `src/pyker/__init__.py`, whose
module-level `HandType` assigns `STRAIGHT_FLUSH = 8` and
`FOUR_OF_A_KIND = 9`: the comparison body is line-identical but reads the
swapped `value`s. -/
def sLtInit (a b : SHand) : Bool :=
  if a.hand_type.valueInit < b.hand_type.valueInit then true
  else if a.hand_type.valueInit > b.hand_type.valueInit then false
  else kickLt a.kickers b.kickers

/-- `ScoredHand.__gt__` under the `src/pyker/__init__.py` `HandType` values. -/
def sGtInit (a b : SHand) : Bool :=
  !(sLtInit a b) && !(sEq a b)

/-- Sequencing of an option-valued map over a list: later elements are not
evaluated after a failure, matching how a Python exception inside a generator
propagates out of `max(...)`. -/
def mapOpt {α β : Type} (f : α → Option β) : List α → Option (List β)
  | [] => some []
  | x :: xs =>
    match f x, mapOpt f xs with
    | some y, some ys => some (y :: ys)
    | _, _ => none

/-- The fold performed by Python's builtin `max`: the first element is the
initial value, and the current value is replaced exactly when `item > current`
(so among tied maxima the earliest is kept). -/
def pyFold (acc : SHand) (l : List SHand) : SHand :=
  l.foldl (fun a x => if sGt x a then x else a) acc

/-- The `max(ScoredHand(list(h)) for h in combinations(self.cards, 5))`
expression of `CardSet.best_hand` (`src/pyker/card_set.py` lines 114-115).
`combinations(l, 5)` enumerates exactly the length-5 subsequences of `l`, here
`List.sublistsLen 5 l`.  A `ValueError`/`TypeError` raised while scoring any
combination propagates out of `max` (`mapOpt` none), as does `max()` applied
to an empty sequence. -/
def bestHandMax (cards : List Card) : Option SHand :=
  match mapOpt scoredHand (List.sublistsLen 5 cards) with
  | none => none
  | some [] => none
  | some (h :: t) => some (pyFold h t)

/-- The body of `CardSet.best_hand` (`src/pyker/card_set.py` lines 107-116) as
a function of the card list: raise `NotImplementedError` unless at least 5
cards, then take the max (which can itself raise, see `bestHandMax`). -/
def bestHand (cards : List Card) : Except Unit SHand :=
  if cards.length < 5 then .error ()
  else
    match bestHandMax cards with
    | none => .error ()
    | some h => .ok h

/-- The mutable state of a `CardSet` (`src/pyker/card_set.py`): the current
cards, the `_original_cardset` saved before the constructor's sort, the
`functools.cached_property` slot for `best_hand`, and the
`_best_hand_updated` flag.  (After construction `self.cards` is a fresh list,
so in-place mutation of `self.cards` by `add_cards` never reaches
`_original_cardset`; an immutable `original` field is therefore faithful for
`deal`/`add_cards` sequences.) -/
structure CardSetSt where
  cards : List Card
  original : List Card
  cache : Option SHand
  bhUpdated : Bool
deriving DecidableEq, Repr

/-- `CardSet.__init__` from a list of cards (`src/pyker/card_set.py` lines
17-45): record the original list, clear the cache state, and sort. -/
def mkCardSet (l : List Card) : CardSetSt :=
  { cards := sortCards l, original := l, cache := none, bhUpdated := false }

/-- Reading the `best_hand` cached property: return the cached value if the
slot is filled, otherwise run the property body.  The body checks the length
(raising `NotImplementedError` before anything is mutated), then sets
`self._best_hand_updated = True` (line 113), then computes the max (line 115),
which may raise `TypeError` — in that case the flag mutation persists on the
object while the slot stays empty, so the returned state carries
`bhUpdated := true` alongside the error.  `cached_property` fills the slot
only on a successful return. -/
def readBestHand (s : CardSetSt) : Except Unit SHand × CardSetSt :=
  match s.cache with
  | some h => (.ok h, s)
  | none =>
    if s.cards.length < 5 then (.error (), s)
    else
      let s' := { s with bhUpdated := true }
      match bestHandMax s.cards with
      | none => (.error (), s')
      | some h => (.ok h, { s' with cache := some h })

/-- `CardSet.deal` (`src/pyker/card_set.py` lines 86-90): slice off the first
`n` cards, then `if self._best_hand_updated: del self.best_hand`.  When the
flag is set but the cached slot is empty, Python's `del` raises
`AttributeError` — the `.error` branch. -/
def deal (s : CardSetSt) (n : Nat) : Except Unit (CardSetSt × CardSetSt) :=
  let s' := { s with cards := s.cards.drop n }
  let dealt := mkCardSet (s.cards.take n)
  if s.bhUpdated then
    match s.cache with
    | some _ => .ok ({ s' with cache := none }, dealt)
    | none => .error ()
  else .ok (s', dealt)

/-- `CardSet.add_cards` (`src/pyker/card_set.py` lines 92-95): append, then the
same `del self.best_hand` guard as `deal`. -/
def addCards (s : CardSetSt) (cs : List Card) : Except Unit CardSetSt :=
  let s' := { s with cards := s.cards ++ cs }
  if s.bhUpdated then
    match s.cache with
    | some _ => .ok { s' with cache := none }
    | none => .error ()
  else .ok s'

/-- `CardSet.retrieve_cards` (`src/pyker/card_set.py` lines 79-81): reset
`self.cards` to `self._original_cardset`. -/
def retrieveCards (s : CardSetSt) : CardSetSt :=
  { s with cards := s.original }

/-- A mutation of a card collection: `deal(n)` or `add_cards(cs)`. -/
inductive CSOp where
  | dealOp (n : Nat)
  | addOp (cs : List Card)

/-- Run a sequence of `deal`/`add_cards` mutations, propagating any raise. -/
def applyOps (s : CardSetSt) : List CSOp → Except Unit CardSetSt
  | [] => .ok s
  | op :: ops =>
    match op with
    | .dealOp n =>
      match deal s n with
      | .error e => .error e
      | .ok (s', _) => applyOps s' ops
    | .addOp cs =>
      match addCards s cs with
      | .error e => .error e
      | .ok s' => applyOps s' ops

/-- Strip leading and trailing whitespace (Python `str.strip`). -/
def stripChars (s : List Char) : List Char :=
  ((s.dropWhile Char.isWhitespace).reverse.dropWhile Char.isWhitespace).reverse

/-- The alias table `{e.alias: e for e in list(Rank) + list(Suit)}` built by
`Card._parse_card`; a missing key is Python's `KeyError`, here `none`.  The 17
aliases are pairwise distinct so the dict has one entry per enum member.  (The
dict keys are the alias strings, which are hashable; the unhashable Rank
members only appear as values.) -/
def aliasLookup (ch : Char) : Option (Sum Rank Suit) :=
  match (List.filter (fun r => Rank.alias r == ch)
      [Rank.ACE, Rank.TWO, Rank.THREE, Rank.FOUR, Rank.FIVE, Rank.SIX,
       Rank.SEVEN, Rank.EIGHT, Rank.NINE, Rank.TEN, Rank.JACK, Rank.QUEEN,
       Rank.KING]) with
  | r :: _ => some (Sum.inl r)
  | [] =>
    match (List.filter (fun s => Suit.alias s == ch)
        [Suit.SPADES, Suit.HEARTS, Suit.CLUBS, Suit.DIAMONDS]) with
    | s :: _ => some (Sum.inr s)
    | [] => none

/-- `Card._parse_card` (`src/pyker/card.py` lines 161-172): require the
stripped token to have length 2, map each original character through the alias
table, and take the first `Rank` and the first `Suit` found (an `IndexError`
— here `none` — if either kind is absent). -/
def parseCard (s : List Char) : Option (Rank × Suit) :=
  if (stripChars s).length = 2 then
    match mapOpt aliasLookup s with
    | none => none
    | some els =>
      match els.filterMap (fun e => match e with | .inl r => some r | .inr _ => none) with
      | [] => none
      | rk :: _ =>
        match els.filterMap (fun e => match e with | .inl _ => none | .inr st => some st) with
        | [] => none
        | st :: _ => some (rk, st)
  else none

/-! ## Basic facts about the stable sorts -/

theorem insertDescBy_perm {α : Type} (key : α → Nat) (x : α) (l : List α) :
    (insertDescBy key x l).Perm (x :: l) := by
  induction l with
  | nil => exact List.Perm.refl _
  | cons y ys ih =>
    simp only [insertDescBy]
    split
    · exact List.Perm.refl _
    · exact (ih.cons y).trans (List.Perm.swap x y ys)

theorem sortDescBy_perm_aux {α : Type} (key : α → Nat) (l acc : List α) :
    (l.foldl (fun a x => insertDescBy key x a) acc).Perm (l ++ acc) := by
  induction l generalizing acc with
  | nil => exact List.Perm.refl _
  | cons x xs ih =>
    simp only [List.foldl_cons]
    refine (ih (insertDescBy key x acc)).trans ?_
    refine (List.Perm.append_left xs (insertDescBy_perm key x acc)).trans ?_
    refine List.perm_middle.trans ?_
    simp

theorem sortDescBy_perm {α : Type} (key : α → Nat) (l : List α) :
    (sortDescBy key l).Perm l := by
  simpa [sortDescBy] using sortDescBy_perm_aux key l []

theorem insertAscBy_perm {α : Type} (key : α → Nat) (x : α) (l : List α) :
    (insertAscBy key x l).Perm (x :: l) := by
  induction l with
  | nil => exact List.Perm.refl _
  | cons y ys ih =>
    simp only [insertAscBy]
    split
    · exact List.Perm.refl _
    · exact (ih.cons y).trans (List.Perm.swap x y ys)

theorem sortAscBy_perm_aux {α : Type} (key : α → Nat) (l acc : List α) :
    (l.foldl (fun a x => insertAscBy key x a) acc).Perm (l ++ acc) := by
  induction l generalizing acc with
  | nil => exact List.Perm.refl _
  | cons x xs ih =>
    simp only [List.foldl_cons]
    refine (ih (insertAscBy key x acc)).trans ?_
    refine (List.Perm.append_left xs (insertAscBy_perm key x acc)).trans ?_
    refine List.perm_middle.trans ?_
    simp

theorem sortAscBy_perm {α : Type} (key : α → Nat) (l : List α) :
    (sortAscBy key l).Perm l := by
  simpa [sortAscBy] using sortAscBy_perm_aux key l []

theorem sortCards_perm (l : List Card) : (sortCards l).Perm l :=
  (sortDescBy_perm _ _).trans (sortAscBy_perm _ l)

/-! ## deal / add_cards / retrieve state lemmas -/

/-- On a collection whose `_best_hand_updated` flag is clear, any sequence of
`deal`/`add_cards` succeeds, never touches `_original_cardset`, and leaves the
flag clear. -/
theorem applyOps_ok : ∀ (ops : List CSOp) (s : CardSetSt), s.bhUpdated = false →
    ∃ s', applyOps s ops = .ok s' ∧ s'.original = s.original ∧ s'.bhUpdated = false := by
  intro ops
  induction ops with
  | nil => intro s h; exact ⟨s, rfl, rfl, h⟩
  | cons op rest ih =>
    intro s h
    cases op with
    | dealOp n =>
      have hd : deal s n
          = .ok ({ s with cards := s.cards.drop n }, mkCardSet (s.cards.take n)) := by
        unfold deal
        rw [if_neg (by rw [h]; simp)]
      obtain ⟨s', hs', ho, hb⟩ := ih { s with cards := s.cards.drop n } h
      refine ⟨s', ?_, ho, hb⟩
      simp only [applyOps]
      rw [hd]
      exact hs'
    | addOp cs =>
      have hd : addCards s cs = .ok { s with cards := s.cards ++ cs } := by
        unfold addCards
        rw [if_neg (by rw [h]; simp)]
      obtain ⟨s', hs', ho, hb⟩ := ih { s with cards := s.cards ++ cs } h
      refine ⟨s', ?_, ho, hb⟩
      simp only [applyOps]
      rw [hd]
      exact hs'

/-! ## Concrete inputs for the claims -/

/-- The wheel straight `5D 4S 3H 2C AS` from the spec's §8. -/
def wheelCards : List Card :=
  [⟨Rank.FIVE, Suit.DIAMONDS⟩, ⟨Rank.FOUR, Suit.SPADES⟩, ⟨Rank.THREE, Suit.HEARTS⟩,
   ⟨Rank.TWO, Suit.CLUBS⟩, ⟨Rank.ACE, Suit.SPADES⟩]

/-- The suited wheel `5S 4S 3S 2S AS` (the spec's steel-wheel straight flush). -/
def steelWheelCards : List Card :=
  [⟨Rank.FIVE, Suit.SPADES⟩, ⟨Rank.FOUR, Suit.SPADES⟩, ⟨Rank.THREE, Suit.SPADES⟩,
   ⟨Rank.TWO, Suit.SPADES⟩, ⟨Rank.ACE, Suit.SPADES⟩]

/-- The 7-card set `AS AH KS QS JS TS 2D` (2 hole + 5 board) from the spec. -/
def royal7cards : List Card :=
  [⟨Rank.ACE, Suit.SPADES⟩, ⟨Rank.ACE, Suit.HEARTS⟩, ⟨Rank.KING, Suit.SPADES⟩,
   ⟨Rank.QUEEN, Suit.SPADES⟩, ⟨Rank.JACK, Suit.SPADES⟩, ⟨Rank.TEN, Suit.SPADES⟩,
   ⟨Rank.TWO, Suit.DIAMONDS⟩]

/-- The royal-flush five `AS KS QS JS TS`. -/
def royalFive : List Card :=
  [⟨Rank.ACE, Suit.SPADES⟩, ⟨Rank.KING, Suit.SPADES⟩, ⟨Rank.QUEEN, Suit.SPADES⟩,
   ⟨Rank.JACK, Suit.SPADES⟩, ⟨Rank.TEN, Suit.SPADES⟩]

/-- Four sevens with a deuce (`7S 7H 7C 7D 2S`), the spec's four-of-a-kind. -/
def quadCards : List Card :=
  [⟨Rank.SEVEN, Suit.SPADES⟩, ⟨Rank.SEVEN, Suit.HEARTS⟩, ⟨Rank.SEVEN, Suit.CLUBS⟩,
   ⟨Rank.SEVEN, Suit.DIAMONDS⟩, ⟨Rank.TWO, Suit.SPADES⟩]

/-- The ordinary straight flush `9H 8H 7H 6H 5H` from the spec's §8. -/
def sf9Cards : List Card :=
  [⟨Rank.NINE, Suit.HEARTS⟩, ⟨Rank.EIGHT, Suit.HEARTS⟩, ⟨Rank.SEVEN, Suit.HEARTS⟩,
   ⟨Rank.SIX, Suit.HEARTS⟩, ⟨Rank.FIVE, Suit.HEARTS⟩]

/-- A plain (off-suit) nine-high straight `9S 8H 7H 6H 5H`. -/
def straight9Cards : List Card :=
  [⟨Rank.NINE, Suit.SPADES⟩, ⟨Rank.EIGHT, Suit.HEARTS⟩, ⟨Rank.SEVEN, Suit.HEARTS⟩,
   ⟨Rank.SIX, Suit.HEARTS⟩, ⟨Rank.FIVE, Suit.HEARTS⟩]

/-- A 6-card spade collection used to exercise the best-hand cache. -/
def demo6 : List Card :=
  [⟨Rank.ACE, Suit.SPADES⟩, ⟨Rank.KING, Suit.SPADES⟩, ⟨Rank.QUEEN, Suit.SPADES⟩,
   ⟨Rank.JACK, Suit.SPADES⟩, ⟨Rank.TEN, Suit.SPADES⟩, ⟨Rank.NINE, Suit.SPADES⟩]

set_option maxRecDepth 16384

/-! ## Claim theorems -/

/-- Claim C1.  The claim states that a STRAIGHT or STRAIGHT_FLUSH hand's
kickers hold the highest rank of the straight under the sort that produced it,
so that the wheel `A-2-3-4-5` (suited or not) has kickers `[FIVE]`.  The code
violates this at exactly that input, and more severely than by a wrong kicker:
`check_straight`'s ace-high pass evaluates `AS >> 5D`, whose `@` reaches the
set `{self.rank, other.rank}` at `card.py` line 127 and raises `TypeError`
(Rank is unhashable), so a wheel is never classified at all and no kicker is
ever produced for it.  Straights that do classify (the no-ace straights, e.g.
nine-high, suited or not) get the single kicker the claim describes. -/
theorem C1_wheel_straight_kicker :
    wheelCards.length = 5
    ∧ scoredHand wheelCards = none
    ∧ steelWheelCards.length = 5
    ∧ scoredHand steelWheelCards = none
    ∧ (scoredHand straight9Cards).map (fun h => (h.hand_type, h.kickers))
        = some (HandType.STRAIGHT, [Rank.NINE])
    ∧ (scoredHand sf9Cards).map (fun h => (h.hand_type, h.kickers))
        = some (HandType.STRAIGHT_FLUSH, [Rank.NINE]) :=
  ⟨rfl, rfl, rfl, rfl, rfl, rfl⟩

/-- Claim C2.  The hand-type order of `src/pyker/enums.py` is as the claim
states: values 1..10 strictly increasing in hand strength, total and
transitive, with `STRAIGHT_FLUSH = 9 > FOUR_OF_A_KIND = 8`; under the
`ScoredHand` comparison a straight flush beats four of a kind (`sGt s q`).
But the duplicate `HandType` in `src/pyker/__init__.py` swaps the two values
(`STRAIGHT_FLUSH = 8 < FOUR_OF_A_KIND = 9`), so in that module four of a kind
beats a straight flush (`sGtInit q s`), contradicting the claim.  (Both hands
construct without error: every adjacent pair in them either has equal ranks,
short-circuiting `>>` at a false `>`, or rank numbers differing by one.) -/
theorem C2_handtype_order_and_init_swap :
    (HandType.HIGH_CARD.value = 1 ∧ HandType.PAIR.value = 2
      ∧ HandType.TWO_PAIR.value = 3 ∧ HandType.THREE_OF_A_KIND.value = 4
      ∧ HandType.STRAIGHT.value = 5 ∧ HandType.FLUSH.value = 6
      ∧ HandType.FULL_HOUSE.value = 7 ∧ HandType.FOUR_OF_A_KIND.value = 8
      ∧ HandType.STRAIGHT_FLUSH.value = 9 ∧ HandType.ROYAL_FLUSH.value = 10)
    ∧ (∀ a b : HandType, a = b ∨ a.value < b.value ∨ b.value < a.value)
    ∧ (∀ a b c : HandType,
        ¬(a.value < b.value) ∨ ¬(b.value < c.value) ∨ a.value < c.value)
    ∧ HandType.FOUR_OF_A_KIND.value < HandType.STRAIGHT_FLUSH.value
    ∧ HandType.STRAIGHT_FLUSH.valueInit < HandType.FOUR_OF_A_KIND.valueInit
    ∧ ((do
        let q ← scoredHand quadCards
        let s ← scoredHand sf9Cards
        pure (sGt s q, sGtInit q s, sGtInit s q)) = some (true, true, false)) := by
  refine ⟨⟨rfl, rfl, rfl, rfl, rfl, rfl, rfl, rfl, rfl, rfl⟩, ?_, ?_, ?_, ?_, ?_⟩
  · decide
  · decide
  · decide
  · decide
  · rfl

/-- Claim C3.  The claim states that reading `best_hand` always returns the
best hand of the current cards and that `deal`/`add_cards` never raise.  The
code violates this: on the 6-card all-spade collection the `best_hand` body
raises `TypeError` while scoring a combination (the unhashable-Rank set in
`Card.__matmul__`), but only after `self._best_hand_updated = True` has
executed and with the `cached_property` slot still empty — so the very next
`deal` runs `del self.best_hand` on an empty slot and raises
`AttributeError`.  (The flag is also never reset on the successful path, the
second latent bug behind the claim.) -/
theorem C3_best_hand_and_first_deal_raise :
    (readBestHand (mkCardSet demo6)).1 = .error ()
    ∧ (readBestHand (mkCardSet demo6)).2.bhUpdated = true
    ∧ (readBestHand (mkCardSet demo6)).2.cache = none
    ∧ deal (readBestHand (mkCardSet demo6)).2 1 = .error () :=
  ⟨rfl, rfl, rfl, rfl⟩

/-- Claim C4.  The claim (and the spec's §8 testable property) says the 5-card
set `{5D, 4S, 3H, 2C, AS}` classifies as STRAIGHT.  The code never classifies
it at all: `check_straight` sorts aces high and evaluates `AS >> 5D`, whose
`@` builds the set `{self.rank, other.rank}` (`card.py` line 127) and raises
`TypeError` because `Rank` defines `__eq__` (`enums.py` line 46) without
`__hash__`.  `scoredHand` on the wheel is therefore an error (`none`), not a
STRAIGHT and not a HIGH_CARD. -/
theorem C4_wheel_raises_typeerror :
    wheelCards.length = 5
    ∧ scoredHand wheelCards = none
    ∧ ∀ t : HandType, (scoredHand wheelCards).map (fun h => h.hand_type) ≠ some t := by
  have hnone : scoredHand wheelCards = none := rfl
  exact ⟨rfl, hnone, fun t h => by rw [hnone] at h; simp at h⟩

/-- Claim C5.  The claim says `best_hand` returns the maximum-scoring of the
C(n,5) combinations — in particular the royal flush on
`AS AH KS QS JS TS 2D`.  The code instead raises `TypeError`: scoring the
ace-high combinations reaches the unhashable-Rank set in `Card.__matmul__`
(e.g. `AS >> KS` in the royal five itself), so the `max` never completes and
`best_hand` propagates the exception rather than returning any hand. -/
theorem C5_best_hand_raises_on_royal7 :
    5 ≤ (mkCardSet royal7cards).cards.length
    ∧ bestHand (mkCardSet royal7cards).cards = .error ()
    ∧ (readBestHand (mkCardSet royal7cards)).1 = .error ()
    ∧ scoredHand royalFive = none :=
  ⟨by decide, rfl, rfl, rfl⟩

/-- Claim C6.  `Card.__lt__` and `Card.__gt__` both return `True` whenever
exactly one of the two cards is an Ace (the comparison is not asymmetric
there); when neither or both are Aces, they compare the raw rank numbers. -/
theorem C6_card_lt_gt (ra rb : Rank) (sa sb : Suit) :
    (xor (decide (ra = Rank.ACE)) (decide (rb = Rank.ACE)) = true →
      cardLt ⟨ra, sa⟩ ⟨rb, sb⟩ = true ∧ cardGt ⟨ra, sa⟩ ⟨rb, sb⟩ = true)
    ∧ (xor (decide (ra = Rank.ACE)) (decide (rb = Rank.ACE)) = false →
      cardLt ⟨ra, sa⟩ ⟨rb, sb⟩ = decide (ra.number < rb.number)
        ∧ cardGt ⟨ra, sa⟩ ⟨rb, sb⟩ = decide (ra.number > rb.number)) := by
  revert ra rb sa sb
  decide

/-- Witness for C6 at `AS` versus `KH` (one Ace) and `KS` versus `QH`. -/
theorem C6_card_lt_gt_witness :
    (xor (decide ((Rank.ACE : Rank) = Rank.ACE))
        (decide ((Rank.KING : Rank) = Rank.ACE)) = true
      ∧ cardLt ⟨Rank.ACE, Suit.SPADES⟩ ⟨Rank.KING, Suit.HEARTS⟩ = true
      ∧ cardGt ⟨Rank.ACE, Suit.SPADES⟩ ⟨Rank.KING, Suit.HEARTS⟩ = true)
    ∧ (xor (decide ((Rank.KING : Rank) = Rank.ACE))
        (decide ((Rank.QUEEN : Rank) = Rank.ACE)) = false
      ∧ cardLt ⟨Rank.KING, Suit.SPADES⟩ ⟨Rank.QUEEN, Suit.HEARTS⟩
          = decide (Rank.KING.number < Rank.QUEEN.number)) := by
  refine ⟨⟨by decide, ?_, ?_⟩, by decide, ?_⟩
  · exact ((C6_card_lt_gt Rank.ACE Rank.KING Suit.SPADES Suit.HEARTS).1 (by decide)).1
  · exact ((C6_card_lt_gt Rank.ACE Rank.KING Suit.SPADES Suit.HEARTS).1 (by decide)).2
  · exact ((C6_card_lt_gt Rank.KING Rank.QUEEN Suit.SPADES Suit.HEARTS).2 (by decide)).1

/-- Claim C7.  The claim says classification raises exactly when the hand is
not 5 cards and `best_hand` raises exactly when fewer than 5 cards are held.
The code violates the "only if" direction: `ScoredHand([AS,KS,QS,JS,TS])` — a
legitimate 5-card hand — raises `TypeError` via the unhashable-Rank set in
`Card.__matmul__` (`card.py` line 127), and `best_hand` on the 6-card
`AS KS QS JS TS 9S` raises likewise.  (The claimed directions that do hold:
a 4-card hand raises `ValueError`, and a hand that avoids the poisoned
adjacency test, such as `9H 8H 7H 6H 5H`, classifies successfully.) -/
theorem C7_typeerror_on_five_card_hand :
    royalFive.length = 5
    ∧ scoredHand royalFive = none
    ∧ 5 ≤ demo6.length
    ∧ bestHand demo6 = .error ()
    ∧ scoredHand (royalFive.take 4) = none
    ∧ (scoredHand sf9Cards).isSome = true :=
  ⟨rfl, rfl, by decide, rfl, rfl, rfl⟩

/-- Claim C8.  For `n ≤ c`, `deal(n)` removes exactly the first `n` cards of
the canonically sorted collection, returns them as a new collection, and
shrinks the source by exactly `n`; `retrieve()` after any sequence of
`deal`/`add_cards` restores the constructor's original card list exactly. -/
theorem C8_deal_slices_and_retrieve_restores (l : List Card) (n : Nat)
    (ops : List CSOp) :
    (n ≤ l.length →
      (match deal (mkCardSet l) n with
      | .ok (rem, dealt) =>
          rem.cards = (sortCards l).drop n
          ∧ rem.cards.length = l.length - n
          ∧ dealt.original = (sortCards l).take n
          ∧ dealt.cards.Perm ((sortCards l).take n)
      | .error _ => False))
    ∧ (∃ s', applyOps (mkCardSet l) ops = .ok s'
        ∧ (retrieveCards s').cards = l) := by
  constructor
  · intro hn
    have hd : deal (mkCardSet l) n
        = .ok ({ cards := (sortCards l).drop n, original := l, cache := none,
                 bhUpdated := false }, mkCardSet ((sortCards l).take n)) := rfl
    rw [hd]
    refine ⟨rfl, ?_, rfl, sortCards_perm _⟩
    simp only [List.length_drop]
    rw [(sortCards_perm l).length_eq]
  · obtain ⟨s', hs', ho, _⟩ := applyOps_ok ops (mkCardSet l) rfl
    refine ⟨s', hs', ?_⟩
    show s'.original = l
    rw [ho]
    rfl

/-- Witness for C8: deal two cards from the wheel collection. -/
theorem C8_deal_slices_witness :
    2 ≤ wheelCards.length
    ∧ (match deal (mkCardSet wheelCards) 2 with
      | .ok (rem, dealt) =>
          rem.cards = (sortCards wheelCards).drop 2
          ∧ rem.cards.length = wheelCards.length - 2
          ∧ dealt.original = (sortCards wheelCards).take 2
          ∧ dealt.cards.Perm ((sortCards wheelCards).take 2)
      | .error _ => False) := by
  refine ⟨by decide, ?_⟩
  exact (C8_deal_slices_and_retrieve_restores wheelCards 2 []).1 (by decide)

/-- Claim C9.  Parsing the 2-character token built from a rank alias and a
suit alias yields exactly that (rank, suit) card, in both character orders. -/
theorem C9_parse_alias_round_trip (r : Rank) (s : Suit) :
    parseCard [r.alias, s.alias] = some (r, s)
    ∧ parseCard [s.alias, r.alias] = some (r, s) := by
  revert r s
  decide

/-- Claim C10.  The `Rank` comparison (used for kicker tie-breaking, e.g. in
`kickLt`) is a strict total order with Ace maximal: for distinct ranks exactly
one of `<` and `>` holds, `ACE >` every other rank, `ACE <` nothing, and the
Card-level both-true quirk does not occur. -/
theorem C10_rank_order_strict_total (r s t : Rank) :
    (r ≠ s → rankLt r s ≠ rankGt r s)
    ∧ (rankLt r s = true → rankLt s r = false)
    ∧ (rankLt r s = true → rankLt s t = true → rankLt r t = true)
    ∧ (r ≠ Rank.ACE → rankGt Rank.ACE r = true)
    ∧ rankLt Rank.ACE r = false
    ∧ rankLt r r = false
    ∧ kickLt [r] [s] = rankLt r s := by
  revert r s t
  decide

/-- Witness for C10 at concrete ranks. -/
theorem C10_rank_order_witness :
    ((Rank.QUEEN : Rank) ≠ Rank.KING
      ∧ rankLt Rank.QUEEN Rank.KING ≠ rankGt Rank.QUEEN Rank.KING)
    ∧ ((Rank.KING : Rank) ≠ Rank.ACE ∧ rankGt Rank.ACE Rank.KING = true)
    ∧ (rankLt Rank.TWO Rank.THREE = true ∧ rankLt Rank.THREE Rank.FOUR = true
      ∧ rankLt Rank.TWO Rank.FOUR = true) := by
  refine ⟨⟨by decide, ?_⟩, ⟨by decide, ?_⟩, by decide, by decide, ?_⟩
  · exact (C10_rank_order_strict_total Rank.QUEEN Rank.KING Rank.ACE).1 (by decide)
  · exact (C10_rank_order_strict_total Rank.KING Rank.ACE Rank.ACE).2.2.2.1 (by decide)
  · exact (C10_rank_order_strict_total Rank.TWO Rank.THREE Rank.FOUR).2.2.1
      (by decide) (by decide)
